import Mathlib

set_option maxRecDepth 8192

/-!
Shallow embedding of `src/main.py` (ats-ng/scmc-video-upload-api): a FastAPI
media upload/streaming service over Azure Blob Storage.  Pure handler logic is
translated directly; the external object-store client is modelled as explicit
state passing over a list of blobs.  Python machine-level details that the
handlers rely on (string `or` truthiness, `str.split`, `str.replace`, `int()`,
`os.path.splitext`) are embedded as executable Lean functions.
-/

namespace Media

/-- Last index of character `c` in `cs`, or `-1` when absent
(the convention of Python's `str.rfind`, used to embed `os.path.splitext`). -/
def lastIdx (c : Char) (cs : List Char) : Int :=
  (cs.foldl (fun (p : Int × Int) x => (p.1 + 1, if x = c then p.1 else p.2)) (0, -1)).2

/-- Embeds `os.path.splitext(filename)[1]`: the extension starting at the last
dot, except that a dot inside the directory part, or a basename consisting
only of leading dots up to that dot, yields no extension. -/
def splitextExt (s : String) : String :=
  let cs := s.data
  let sepIdx := lastIdx '/' cs
  let dotIdx := lastIdx '.' cs
  if sepIdx < dotIdx then
    let base := (cs.take dotIdx.toNat).drop (sepIdx + 1).toNat
    if base.all (fun c => c = '.') then "" else String.mk (cs.drop dotIdx.toNat)
  else ""

/-- Python `str.lower()` (ASCII suffices for the extensions in play). -/
def lowerString (s : String) : String := String.mk (s.data.map Char.toLower)

/-- `ALLOWED_EXTENSIONS` from `src/main.py` lines 31-35, in dict insertion
order. -/
def ALLOWED_EXTENSIONS : List (String × List String) :=
  [("video", [".mp4", ".avi", ".mov", ".wmv", ".flv", ".webm", ".mkv"]),
   ("audio", [".mp3", ".wav", ".ogg", ".m4a", ".flac"]),
   ("image", [".jpg", ".jpeg", ".png", ".gif", ".webp", ".bmp"])]

/-- `get_media_type` (lines 66-72): classify a filename by lower-cased
extension, first matching category wins, else "unknown". -/
def get_media_type (filename : String) : String :=
  let ext := lowerString (splitextExt filename)
  match ALLOWED_EXTENSIONS.find? (fun p => p.2.contains ext) with
  | some p => p.1
  | none => "unknown"

/-- `is_allowed_file` (lines 75-81). -/
def is_allowed_file (filename : String) : Bool :=
  let ext := lowerString (splitextExt filename)
  ALLOWED_EXTENSIONS.any (fun p => p.2.contains ext)

/-- Model of Python's `mimetypes.guess_type(filename)[0]` (standard library,
external to the repo), restricted to a representative table; only consulted
when the caller supplies no content type. -/
def guess_type (filename : String) : Option String :=
  let ext := lowerString (splitextExt filename)
  if ext = ".mp4" then some "video/mp4"
  else if ext = ".mp3" then some "audio/mpeg"
  else if ext = ".jpg" ∨ ext = ".jpeg" then some "image/jpeg"
  else if ext = ".png" then some "image/png"
  else none

/-- Python `a or b` on an optional string: `None` and `""` are falsy. -/
def pyOrS (a : Option String) (b : String) : String :=
  match a with
  | some s => if s = "" then b else s
  | none => b

/-- One multipart file part as the handler sees it (`fastapi.UploadFile`). -/
structure UploadFile where
  filename : String
  content_type : Option String
  data : List Nat
deriving DecidableEq

/-- Line 120: `file.content_type or mimetypes.guess_type(...)[0] or
"application/octet-stream"`. -/
def resolveContentType (file : UploadFile) : String :=
  pyOrS file.content_type (pyOrS (guess_type file.filename) "application/octet-stream")

/-- `azure.storage.blob.ContentSettings` as set by the inner upload call
(lines 142-146). -/
structure ContentSettings where
  content_type : String
  content_disposition : String
  cache_control : String
deriving DecidableEq

/-- One stored blob: name (storage key), bytes, attached metadata key/value
pairs, and content settings.  `blob.size` is the byte length of `data`. -/
structure Blob where
  name : String
  data : List Nat
  metadata : List (String × String)
  contentSettings : ContentSettings
deriving DecidableEq

/-- Python `dict.get(k)` on a metadata dict (keys unique). -/
def lookupMeta (m : List (String × String)) (k : String) : Option String :=
  (m.find? (fun p => p.1 == k)).map (fun p => p.2)

/-- The resolution loop shared by stream/info/delete (e.g. lines 185-188):
first listed blob whose metadata is non-empty and has `media_id = media_id`. -/
def findMediaBlob (store : List Blob) (media_id : String) : Option Blob :=
  store.find? (fun b => !b.metadata.isEmpty && lookupMeta b.metadata "media_id" == some media_id)

/-- `upload_blob(..., overwrite=True)`: replace the blob with the same storage
key, or add the blob to the container. -/
def putBlob (store : List Blob) (b : Blob) : List Blob :=
  if store.any (fun x => x.name == b.name) then
    store.map (fun x => if x.name == b.name then b else x)
  else store ++ [b]

/-- The blob written by the inner `upload_blob` call of `upload_media`
(lines 116-148): key `media_id + extension`, the uploaded bytes, the four
metadata entries of lines 131-136, and the content settings of lines 142-146. -/
def mkMediaBlob (media_id upload_time : String) (file : UploadFile) : Blob :=
  { name := media_id ++ splitextExt file.filename
    data := file.data
    metadata := [("original_filename", file.filename),
                 ("media_id", media_id),
                 ("upload_time", upload_time),
                 ("media_type", get_media_type file.filename)]
    contentSettings := { content_type := resolveContentType file
                         content_disposition := "inline"
                         cache_control := "no-cache" } }

/-- Lines 57-63: the success body of `POST /upload`. -/
structure UploadResponse where
  success : Bool
  media_id : String
  filename : String
  size : Nat
  content_type : String
  stream_url : String
deriving DecidableEq

/-- Outcome of `POST /upload` together with the store state it leaves behind:
either the `UploadResponse`, or an `HTTPException` status/detail. -/
inductive UploadResult where
  | ok (resp : UploadResponse) (store : List Blob)
  | error (status : Nat) (detail : String) (store : List Blob)
deriving DecidableEq

def UploadResult.statusCode : UploadResult → Nat
  | .ok _ _ => 200
  | .error s _ _ => s

def UploadResult.newStore : UploadResult → List Blob
  | .ok _ st => st
  | .error _ _ st => st

/-- `upload_media` (lines 97-164).  `media_id` stands for the fresh
`uuid.uuid4()` of line 115, `upload_time` for `datetime.utcnow().isoformat()`,
and `storeAccepts` for whether the object store accepts the write issued by
the inner `upload_blob` call.

Lines 138-152 contain a duplicated, nested `upload_blob` call: the inner call
(with content settings) runs first and writes the blob; its return value is
then passed as the OUTER call's second positional argument, which is
`blob_type`.  The store client rejects an unrecognised `blob_type` with
`ValueError` before issuing any write, so the outer call always raises and
the handler's catch-all (line 163) turns every upload into a 500 — after the
inner write already persisted the blob. -/
def upload_media (media_id upload_time : String) (storeAccepts : Bool)
    (file : UploadFile) (store : List Blob) : UploadResult :=
  if is_allowed_file file.filename = false then
    .error 400 "File type not allowed" store
  else if storeAccepts then
    .error 500 "Upload failed: Unsupported blob type"
      (putBlob store (mkMediaBlob media_id upload_time file))
  else
    .error 500 "Upload failed: store write rejected" store

/-- Python `str.split(sep)` for a one-character separator: splits on every
occurrence, keeping empty pieces (so the result list is never empty). -/
def pySplit (sep : Char) : List Char → List (List Char)
  | [] => [[]]
  | c :: cs =>
    if c = sep then [] :: pySplit sep cs
    else
      match pySplit sep cs with
      | [] => [[c]]
      | g :: gs => (c :: g) :: gs

/-- Python `range.replace("bytes=", "")` (line 206): remove every
non-overlapping occurrence of the six characters `bytes=`, left to right. -/
def removeBytesEq : List Char → List Char
  | 'b' :: 'y' :: 't' :: 'e' :: 's' :: '=' :: rest => removeBytesEq rest
  | c :: cs => c :: removeBytesEq cs
  | [] => []

/-- Decimal digits to a natural number. -/
def digitsToNat (cs : List Char) : Nat :=
  cs.foldl (fun acc c => acc * 10 + (c.toNat - 48)) 0

/-- Model of Python `int(s)` on plain decimal literals: optional sign followed
by at least one digit; anything else raises `ValueError` (`none`). -/
def pyIntChars : List Char → Option Int
  | [] => none
  | '-' :: rest =>
    if rest ≠ [] ∧ rest.all Char.isDigit then some (-(digitsToNat rest : Int)) else none
  | '+' :: rest =>
    if rest ≠ [] ∧ rest.all Char.isDigit then some (digitsToNat rest : Int) else none
  | cs =>
    if cs.all Char.isDigit then some (digitsToNat cs : Int) else none

/-- Lines 206-209 of `stream_media`: strip `bytes=`, split on `-`, take
piece 0 as `start` (default 0 when empty) and piece 1 as `end` (default
`file_size - 1` when empty).  `int()` on a non-numeric piece raises
`ValueError`; a missing piece 1 raises `IndexError`; both are caught by the
handler's catch-all.  No bounds check of any kind is performed. -/
def parseRangeBounds (r : String) (file_size : Nat) : Except String (Int × Int) :=
  match pySplit '-' (removeBytesEq r.data) with
  | [] => Except.error "IndexError"
  | p0 :: rest =>
    match (if p0.isEmpty then some 0 else pyIntChars p0) with
    | none => Except.error "ValueError"
    | some a =>
      match rest.head? with
      | none => Except.error "IndexError"
      | some p1 =>
        match (if p1.isEmpty then some ((file_size : Int) - 1) else pyIntChars p1) with
        | none => Except.error "ValueError"
        | some b => Except.ok (a, b)

/-- Model of the object store's ranged download
`blob_client.download_blob(offset=start, length=content_length)` (line 215):
a negative offset, a non-positive length, or an offset at or past the end of
the blob is rejected by the store client/service (surfacing as an exception);
otherwise the store returns the requested window, clamped at the end of the
blob. -/
def download_blob (data : List Nat) (offset length : Int) : Except String (List Nat) :=
  if offset < 0 ∨ length ≤ 0 ∨ (data.length : Int) ≤ offset then
    Except.error "InvalidRange"
  else
    Except.ok ((data.drop offset.toNat).take length.toNat)

/-- The fixed response headers of lines 218-226. -/
def baseHeaders (ct : String) : List (String × String) :=
  [("Content-Type", ct),
   ("Accept-Ranges", "bytes"),
   ("Content-Disposition", "inline"),
   ("X-Content-Type-Options", "nosniff"),
   ("Cache-Control", "no-cache, no-store, must-revalidate"),
   ("Pragma", "no-cache"),
   ("Expires", "0")]

/-- A completed `GET /stream/{media_id}` response. -/
structure StreamOk where
  status : Nat
  headers : List (String × String)
  body : List Nat
deriving DecidableEq

/-- Outcome of `GET /stream/{media_id}`: a response, or an `HTTPException`.
`issued` records the ranged store read (offset, length) that the handler
issued, `none` when it failed before reaching the download of line 215. -/
inductive StreamResult where
  | ok (resp : StreamOk) (issued : Int × Int)
  | error (status : Nat) (detail : String) (issued : Option (Int × Int))
deriving DecidableEq

def StreamResult.statusOf : StreamResult → Nat
  | .ok r _ => r.status
  | .error s _ _ => s

def StreamResult.bodyOf : StreamResult → List Nat
  | .ok r _ => r.body
  | .error _ _ _ => []

def StreamResult.headersOf : StreamResult → List (String × String)
  | .ok r _ => r.headers
  | .error _ _ _ => []

def StreamResult.issuedRead : StreamResult → Option (Int × Int)
  | .ok _ i => some i
  | .error _ _ i => i

/-- First-match header lookup (all header keys here are distinct). -/
def getHeader (hs : List (String × String)) (k : String) : Option String :=
  (hs.find? (fun p => p.1 == k)).map (fun p => p.2)

/-- `stream_media` (lines 167-245).  The `HTTPException(404)` of line 191 is
raised inside the `try` block and is not a `ResourceNotFoundError`, so the
catch-all `except Exception` of line 244 converts it into a 500 whose detail
embeds the original 404.  A `ValueError`/`IndexError` from range parsing is
converted the same way.  An empty `range` header string is falsy in Python
(`if range:`), hence treated as no range. -/
def stream_media (media_id : String) (range : Option String) (store : List Blob) :
    StreamResult :=
  match findMediaBlob store media_id with
  | none => .error 500 "Streaming failed: 404: Media not found" none
  | some b =>
    let file_size := b.data.length
    let ct := b.contentSettings.content_type
    let parsed : Except String (Int × Int × Nat) :=
      match range with
      | some r =>
        if r = "" then Except.ok (0, (file_size : Int) - 1, 200)
        else
          match parseRangeBounds r file_size with
          | Except.ok (a, e) => Except.ok (a, e, 206)
          | Except.error msg => Except.error msg
      | none => Except.ok (0, (file_size : Int) - 1, 200)
    match parsed with
    | Except.error msg => .error 500 ("Streaming failed: " ++ msg) none
    | Except.ok (a, e, status) =>
      let content_length : Int := e - a + 1
      let headers :=
        if status = 206 then
          baseHeaders ct ++
            [("Content-Range",
              "bytes " ++ toString a ++ "-" ++ toString e ++ "/" ++ toString file_size),
             ("Content-Length", toString content_length)]
        else baseHeaders ct ++ [("Content-Length", toString file_size)]
      match download_blob b.data a content_length with
      | Except.error _ => .error 500 "Streaming failed: store range error" (some (a, content_length))
      | Except.ok body => .ok ⟨status, headers, body⟩ (a, content_length)

/-- Lines 48-54: the `GET /media/{media_id}` response model. -/
structure MediaInfo where
  media_id : String
  filename : String
  content_type : String
  size : Nat
  upload_time : String
  media_type : String
deriving DecidableEq

inductive InfoResult where
  | ok (info : MediaInfo)
  | error (status : Nat) (detail : String)
deriving DecidableEq

def InfoResult.statusOf : InfoResult → Nat
  | .ok _ => 200
  | .error s _ => s

/-- `get_media_info` (lines 248-277).  As in `stream_media`, the
`HTTPException(404)` of line 274 is swallowed by the catch-all of line 276
and resurfaces as a 500. -/
def get_media_info (media_id : String) (store : List Blob) : InfoResult :=
  match findMediaBlob store media_id with
  | some b =>
    .ok { media_id := media_id
          filename := (lookupMeta b.metadata "original_filename").getD "unknown"
          content_type := b.contentSettings.content_type
          size := b.data.length
          upload_time := (lookupMeta b.metadata "upload_time").getD "unknown"
          media_type := (lookupMeta b.metadata "media_type").getD "unknown" }
  | none => .error 500 "404: Media not found"

/-- Outcome of `DELETE /media/{media_id}` with the store it leaves behind. -/
inductive DeleteResult where
  | ok (message : String) (store : List Blob)
  | error (status : Nat) (detail : String) (store : List Blob)
deriving DecidableEq

def DeleteResult.statusCode : DeleteResult → Nat
  | .ok _ _ => 200
  | .error s _ _ => s

def DeleteResult.newStore : DeleteResult → List Blob
  | .ok _ st => st
  | .error _ _ st => st

/-- `delete_media` (lines 312-335): delete the first blob whose metadata
matches, else the `HTTPException(404)` of line 332 is swallowed by the
catch-all of line 334 and resurfaces as a 500.  `delete_blob` removes the
blob under the resolved storage key. -/
def delete_media (media_id : String) (store : List Blob) : DeleteResult :=
  match findMediaBlob store media_id with
  | some b =>
    .ok ("Media " ++ media_id ++ " deleted successfully")
      (store.filter (fun x => x.name ≠ b.name))
  | none => .error 500 "404: Media not found" store

/-- One entry of the `GET /media/list` response (lines 294-301). -/
structure MediaListEntry where
  media_id : String
  filename : String
  size : Nat
  upload_time : String
  media_type : String
  stream_url : String
deriving DecidableEq

/-- `list_media` (lines 280-309): enumerate the container's blobs directly,
keeping those whose metadata is non-empty and carries a truthy (non-empty)
`media_id`; return `(total, media)`.  No separate index object is consulted
or maintained anywhere in the code. -/
def list_media (store : List Blob) : Nat × List MediaListEntry :=
  let entries := store.filterMap (fun b =>
    if b.metadata.isEmpty then none
    else
      match lookupMeta b.metadata "media_id" with
      | none => none
      | some mid =>
        if mid = "" then none
        else some { media_id := mid
                    filename := (lookupMeta b.metadata "original_filename").getD "unknown"
                    size := b.data.length
                    upload_time := (lookupMeta b.metadata "upload_time").getD "unknown"
                    media_type := (lookupMeta b.metadata "media_type").getD "unknown"
                    stream_url := "/stream/" ++ mid })
  (entries.length, entries)

/-! Concrete fixtures used by several claims: a 10-byte `clip.mp4` upload and
its stored blob, and a 600-byte stored object for range arithmetic. -/

/-- Ten bytes, as in the spec's concrete scenario. -/
def clipBytes : List Nat := [10, 11, 12, 13, 14, 15, 16, 17, 18, 19]

def clipFile : UploadFile := ⟨"clip.mp4", some "video/mp4", clipBytes⟩

/-- The blob the ingest of `clipFile` stores (media_id "m1", upload time "t0"). -/
def clipBlob : Blob := mkMediaBlob "m1" "t0" clipFile

def clipStore : List Blob := [clipBlob]

/-- A stored 600-byte media object with media_id "m2". -/
def bigBlob : Blob :=
  { name := "m2.mp4"
    data := List.range 600
    metadata := [("original_filename", "big.mp4"), ("media_id", "m2"),
                 ("upload_time", "t2"), ("media_type", "video")]
    contentSettings := ⟨"video/mp4", "inline", "no-cache"⟩ }

def bigStore : List Blob := [bigBlob]

/-! Helper lemmas shared by several claim theorems. -/

theorem find?_append_first_none {α} (p : α → Bool) {l1 l2 : List α}
    (h : ∀ x ∈ l1, p x = false) : (l1 ++ l2).find? p = l2.find? p := by
  rw [List.find?_append]
  have : l1.find? p = none := List.find?_eq_none.mpr (by simpa using h)
  rw [this, Option.none_or]

theorem putBlob_fresh {store : List Blob} {b : Blob}
    (h : ∀ x ∈ store, x.name ≠ b.name) : putBlob store b = store ++ [b] := by
  have : store.any (fun x => x.name == b.name) = false := by
    simp only [List.any_eq_false]
    intro x hx
    simpa using h x hx
  simp [putBlob, this]

theorem mkMediaBlob_pred (rid now : String) (f : UploadFile) :
    (!(mkMediaBlob rid now f).metadata.isEmpty &&
      lookupMeta (mkMediaBlob rid now f).metadata "media_id" == some rid) = true := by
  have h1 : lookupMeta [("original_filename", f.filename), ("media_id", rid),
      ("upload_time", now), ("media_type", get_media_type f.filename)] "media_id" = some rid := rfl
  simp [mkMediaBlob, h1]

theorem findMediaBlob_append_fresh {store : List Blob} {rid : String} {b : Blob}
    (hfresh : ∀ x ∈ store, lookupMeta x.metadata "media_id" ≠ some rid)
    (hb : (!b.metadata.isEmpty && lookupMeta b.metadata "media_id" == some rid) = true) :
    findMediaBlob (store ++ [b]) rid = some b := by
  unfold findMediaBlob
  rw [find?_append_first_none]
  · simp [List.find?, hb]
  · intro x hx
    have := hfresh x hx
    simp only [Bool.and_eq_false_iff]
    right
    simpa using this

/-- C8: an inadmissible filename (no recognizable extension or one outside
the fixed table, case-insensitively) is rejected at line 108 with a 400
before the `try` block — so it really surfaces as a 400, not a 500 — and
before any store interaction: the handler returns with the store unchanged
and no index or metadata mutation of any kind. -/
theorem reject_inadmissible (rid now : String) (acc : Bool) (f : UploadFile)
    (store : List Blob) (h : is_allowed_file f.filename = false) :
    upload_media rid now acc f store = .error 400 "File type not allowed" store := by
  simp [upload_media, h]

/-- Witness for C8 at the spec's own concrete scenario `photo.txt`. -/
theorem reject_inadmissible_witness :
    is_allowed_file "photo.txt" = false ∧
    upload_media "m8" "t8" true ⟨"photo.txt", some "text/plain", [1, 2, 3]⟩ [] =
      .error 400 "File type not allowed" [] :=
  ⟨by rfl, reject_inadmissible "m8" "t8" true ⟨"photo.txt", some "text/plain", [1, 2, 3]⟩ [] (by rfl)⟩

theorem download_blob_eq_ok (data : List Nat) (a len : Int)
    (h0 : 0 ≤ a) (hlen : 0 < len) (hN : a < (data.length : Int)) :
    download_blob data a len = Except.ok ((data.drop a.toNat).take len.toNat) := by
  unfold download_blob
  rw [if_neg (by omega)]

theorem stream_media_resolved_none {store : List Blob} {mid : String} {b : Blob}
    (hfind : findMediaBlob store mid = some b) :
    stream_media mid none store =
      match download_blob b.data 0 (b.data.length : Int) with
      | Except.error _ =>
          .error 500 "Streaming failed: store range error" (some (0, (b.data.length : Int)))
      | Except.ok body =>
          .ok ⟨200, baseHeaders b.contentSettings.content_type ++
                 [("Content-Length", toString b.data.length)], body⟩
            (0, (b.data.length : Int)) := by
  simp [stream_media, hfind]

/-- C9: a 500 from `/upload` is not atomic.  After an admissible upload whose
inner store write succeeded and whose handler then raised (which, per the
nested duplicated `upload_blob`, is what happens on every accepted write),
the response is 500 but the media object remains in the store — carrying the
full metadata set baked into `mkMediaBlob` (original_filename, media_id,
upload_time, media_type) — and the generated media_id resolves: `info`
returns the record and `stream` serves the full bytes with a 200. -/
theorem upload_500_not_atomic (rid now : String) (f : UploadFile) (store : List Blob)
    (hadm : is_allowed_file f.filename = true)
    (hfresh : ∀ x ∈ store, lookupMeta x.metadata "media_id" ≠ some rid)
    (hname : ∀ x ∈ store, x.name ≠ (mkMediaBlob rid now f).name)
    (hlen : 0 < f.data.length) :
    (upload_media rid now true f store).statusCode = 500 ∧
    (upload_media rid now true f store).newStore = store ++ [mkMediaBlob rid now f] ∧
    findMediaBlob (upload_media rid now true f store).newStore rid =
      some (mkMediaBlob rid now f) ∧
    get_media_info rid (upload_media rid now true f store).newStore =
      .ok ⟨rid, f.filename, resolveContentType f, f.data.length, now, get_media_type f.filename⟩ ∧
    (stream_media rid none (upload_media rid now true f store).newStore).statusOf = 200 ∧
    (stream_media rid none (upload_media rid now true f store).newStore).bodyOf = f.data := by
  have hstore : (upload_media rid now true f store).newStore = store ++ [mkMediaBlob rid now f] := by
    simp [upload_media, hadm, UploadResult.newStore, putBlob_fresh hname]
  have hfind : findMediaBlob (store ++ [mkMediaBlob rid now f]) rid =
      some (mkMediaBlob rid now f) :=
    findMediaBlob_append_fresh hfresh (mkMediaBlob_pred rid now f)
  have hdl : download_blob (mkMediaBlob rid now f).data 0
      ((mkMediaBlob rid now f).data.length : Int) = Except.ok f.data := by
    have hd : (mkMediaBlob rid now f).data = f.data := rfl
    rw [hd, download_blob_eq_ok f.data 0 (f.data.length : Int) (le_refl 0) (by exact_mod_cast hlen) (by exact_mod_cast hlen)]
    simp
  refine ⟨by simp [upload_media, hadm, UploadResult.statusCode], hstore, ?_, ?_, ?_, ?_⟩
  · rw [hstore]; exact hfind
  · rw [hstore]
    unfold get_media_info
    rw [hfind]
    rfl
  · rw [hstore, stream_media_resolved_none hfind, hdl]
    rfl
  · rw [hstore, stream_media_resolved_none hfind, hdl]
    rfl

/-- Witness for C9: uploading the 10-byte `clip.mp4` into an empty store. -/
theorem upload_500_not_atomic_witness :
    is_allowed_file "clip.mp4" = true ∧
    (upload_media "m1" "t0" true clipFile []).statusCode = 500 ∧
    get_media_info "m1" (upload_media "m1" "t0" true clipFile []).newStore =
      .ok ⟨"m1", "clip.mp4", "video/mp4", 10, "t0", "video"⟩ ∧
    (stream_media "m1" none (upload_media "m1" "t0" true clipFile []).newStore).statusOf = 200 := by
  have h := upload_500_not_atomic "m1" "t0" clipFile []
    (by rfl) (by intro x hx; cases hx) (by intro x hx; cases hx) (by decide)
  exact ⟨by rfl, h.1, h.2.2.2.1, h.2.2.2.2.1⟩

theorem pySplit_no_sep (sep : Char) (cs : List Char) (h : sep ∉ cs) :
    pySplit sep cs = [cs] := by
  induction cs with
  | nil => rfl
  | cons c cs ih =>
    have hc : ¬ c = sep := fun hh => h (hh ▸ List.mem_cons_self c cs)
    have hcs : sep ∉ cs := fun hh => h (List.mem_cons_of_mem c hh)
    simp [pySplit, hc, ih hcs]

theorem pySplit_append_sep (sep : Char) (cs : List Char) (h : sep ∉ cs) :
    pySplit sep (cs ++ [sep]) = [cs, []] := by
  induction cs with
  | nil => simp [pySplit]
  | cons c cs ih =>
    have hc : ¬ c = sep := fun hh => h (hh ▸ List.mem_cons_self c cs)
    have hcs : sep ∉ cs := fun hh => h (List.mem_cons_of_mem c hh)
    simp [pySplit, hc, ih hcs]

theorem removeBytesEq_drop_head (cs : List Char) :
    removeBytesEq ('b' :: 'y' :: 't' :: 'e' :: 's' :: '=' :: cs) = removeBytesEq cs := by
  rfl

theorem removeBytesEq_cons_dash (cs : List Char) :
    removeBytesEq ('-' :: cs) = '-' :: removeBytesEq cs := by
  rfl

theorem data_bytes_dash (s : String) :
    ("bytes=-" ++ s).data = 'b' :: 'y' :: 't' :: 'e' :: 's' :: '=' :: '-' :: s.data := by
  rw [String.data_append]
  have h : "bytes=-".data = ['b', 'y', 't', 'e', 's', '=', '-'] := rfl
  rw [h]
  rfl

theorem data_bytes_mid_dash (s : String) :
    ("bytes=" ++ s ++ "-").data = 'b' :: 'y' :: 't' :: 'e' :: 's' :: '=' :: (s.data ++ ['-']) := by
  rw [String.data_append, String.data_append]
  have h : "bytes=".data = ['b', 'y', 't', 'e', 's', '='] := rfl
  have h2 : "-".data = ['-'] := rfl
  rw [h, h2, List.append_assoc]
  rfl

theorem parseRange_suffix (sB : String) (N : Nat) (e : Int)
    (hB0 : removeBytesEq sB.data = sB.data) (hBd : '-' ∉ sB.data)
    (hBi : pyIntChars sB.data = some e) (hBne : sB.data ≠ []) :
    parseRangeBounds ("bytes=-" ++ sB) N = Except.ok (0, e) := by
  unfold parseRangeBounds
  rw [data_bytes_dash, removeBytesEq_drop_head, removeBytesEq_cons_dash, hB0]
  have hs : pySplit '-' ('-' :: sB.data) = [] :: pySplit '-' sB.data := by simp [pySplit]
  rw [hs, pySplit_no_sep '-' sB.data hBd]
  have hne : sB.data.isEmpty = false := by
    cases hd : sB.data
    · exact absurd hd hBne
    · rfl
  simp [hne, hBi]

theorem parseRange_omitted_end (sA : String) (N : Nat) (a : Int)
    (hA0 : removeBytesEq (sA.data ++ ['-']) = sA.data ++ ['-']) (hAd : '-' ∉ sA.data)
    (hAi : pyIntChars sA.data = some a) (hAne : sA.data ≠ []) :
    parseRangeBounds ("bytes=" ++ sA ++ "-") N = Except.ok (a, (N : Int) - 1) := by
  unfold parseRangeBounds
  rw [data_bytes_mid_dash, removeBytesEq_drop_head, hA0,
    pySplit_append_sep '-' sA.data hAd]
  have hne : sA.data.isEmpty = false := by
    cases hd : sA.data
    · exact absurd hd hAne
    · rfl
  simp [hne, hAi]

theorem pySplit_sep_middle (sep : Char) (cs ds : List Char) (h : sep ∉ cs) :
    pySplit sep (cs ++ sep :: ds) = cs :: pySplit sep ds := by
  induction cs with
  | nil => simp [pySplit]
  | cons c cs ih =>
    have hc : ¬ c = sep := fun hh => h (hh ▸ List.mem_cons_self c cs)
    have hcs : sep ∉ cs := fun hh => h (List.mem_cons_of_mem c hh)
    simp [pySplit, hc, ih hcs]

theorem data_bytes_both (s t : String) :
    ("bytes=" ++ s ++ "-" ++ t).data =
      'b' :: 'y' :: 't' :: 'e' :: 's' :: '=' :: (s.data ++ '-' :: t.data) := by
  rw [String.data_append, String.data_append, String.data_append]
  have h : "bytes=".data = ['b', 'y', 't', 'e', 's', '='] := rfl
  have h2 : "-".data = ['-'] := rfl
  rw [h, h2, List.append_assoc, List.append_assoc]
  rfl

theorem parseRange_both (sA sB : String) (N : Nat) (a e : Int)
    (h0 : removeBytesEq (sA.data ++ '-' :: sB.data) = sA.data ++ '-' :: sB.data)
    (hAd : '-' ∉ sA.data) (hBd : '-' ∉ sB.data)
    (hAi : pyIntChars sA.data = some a) (hBi : pyIntChars sB.data = some e)
    (hAne : sA.data ≠ []) (hBne : sB.data ≠ []) :
    parseRangeBounds ("bytes=" ++ sA ++ "-" ++ sB) N = Except.ok (a, e) := by
  unfold parseRangeBounds
  rw [data_bytes_both, removeBytesEq_drop_head, h0,
    pySplit_sep_middle '-' sA.data sB.data hAd, pySplit_no_sep '-' sB.data hBd]
  have hne1 : sA.data.isEmpty = false := by
    cases hd : sA.data
    · exact absurd hd hAne
    · rfl
  have hne2 : sB.data.isEmpty = false := by
    cases hd : sB.data
    · exact absurd hd hBne
    · rfl
  simp [hne1, hne2, hAi, hBi]

theorem stream_media_resolved_ranged {store : List Blob} {mid r : String} {b : Blob} {a e : Int}
    (hfind : findMediaBlob store mid = some b) (hr : ¬ r = "")
    (hp : parseRangeBounds r b.data.length = Except.ok (a, e)) :
    stream_media mid (some r) store =
      match download_blob b.data a (e - a + 1) with
      | Except.error _ =>
          .error 500 "Streaming failed: store range error" (some (a, e - a + 1))
      | Except.ok body =>
          .ok ⟨206, baseHeaders b.contentSettings.content_type ++
                 [("Content-Range", "bytes " ++ toString a ++ "-" ++ toString e ++ "/" ++
                     toString b.data.length),
                  ("Content-Length", toString (e - a + 1))], body⟩
            (a, e - a + 1) := by
  simp [stream_media, hfind, hr, hp]

theorem stream_media_parse_error {store : List Blob} {mid r : String} {b : Blob} {msg : String}
    (hfind : findMediaBlob store mid = some b) (hr : ¬ r = "")
    (hp : parseRangeBounds r b.data.length = Except.error msg) :
    stream_media mid (some r) store = .error 500 ("Streaming failed: " ++ msg) none := by
  simp [stream_media, hfind, hr, hp]

/-- C5: for a stored object of size N and a satisfiable range `bytes=A-B`
with 0 ≤ A ≤ B < N, `stream` returns 206 with exactly the object's bytes at
offsets A..B (B−A+1 of them), `Content-Range: bytes A-B/N`, and
`Content-Length: B−A+1`. -/
theorem stream_valid_range (store : List Blob) (mid : String) (b : Blob)
    (sA sB : String) (a e : Int)
    (hfind : findMediaBlob store mid = some b)
    (h0 : removeBytesEq (sA.data ++ '-' :: sB.data) = sA.data ++ '-' :: sB.data)
    (hAd : '-' ∉ sA.data) (hBd : '-' ∉ sB.data)
    (hAi : pyIntChars sA.data = some a) (hBi : pyIntChars sB.data = some e)
    (hAne : sA.data ≠ []) (hBne : sB.data ≠ [])
    (ha : 0 ≤ a) (hae : a ≤ e) (heN : e < (b.data.length : Int)) :
    stream_media mid (some ("bytes=" ++ sA ++ "-" ++ sB)) store =
      .ok ⟨206, baseHeaders b.contentSettings.content_type ++
             [("Content-Range", "bytes " ++ toString a ++ "-" ++ toString e ++ "/" ++
                 toString b.data.length),
              ("Content-Length", toString (e - a + 1))],
           (b.data.drop a.toNat).take (e - a + 1).toNat⟩
        (a, e - a + 1) ∧
    ((stream_media mid (some ("bytes=" ++ sA ++ "-" ++ sB)) store).bodyOf).length =
      (e - a + 1).toNat ∧
    getHeader (stream_media mid (some ("bytes=" ++ sA ++ "-" ++ sB)) store).headersOf
        "Content-Range" =
      some ("bytes " ++ toString a ++ "-" ++ toString e ++ "/" ++ toString b.data.length) ∧
    getHeader (stream_media mid (some ("bytes=" ++ sA ++ "-" ++ sB)) store).headersOf
        "Content-Length" =
      some (toString (e - a + 1)) := by
  have hp := parseRange_both sA sB b.data.length a e h0 hAd hBd hAi hBi hAne hBne
  have hr : ¬ ("bytes=" ++ sA ++ "-" ++ sB) = "" := by
    intro h
    have hd := data_bytes_both sA sB
    rw [h] at hd
    cases hd
  have hdl := download_blob_eq_ok b.data a (e - a + 1) ha (by omega) (by omega)
  have hmain : stream_media mid (some ("bytes=" ++ sA ++ "-" ++ sB)) store =
      .ok ⟨206, baseHeaders b.contentSettings.content_type ++
             [("Content-Range", "bytes " ++ toString a ++ "-" ++ toString e ++ "/" ++
                 toString b.data.length),
              ("Content-Length", toString (e - a + 1))],
           (b.data.drop a.toNat).take (e - a + 1).toNat⟩
        (a, e - a + 1) := by
    rw [stream_media_resolved_ranged hfind hr hp, hdl]
  refine ⟨hmain, ?_, ?_, ?_⟩
  · rw [hmain]
    simp only [StreamResult.bodyOf, List.length_take, List.length_drop]
    omega
  · rw [hmain]; rfl
  · rw [hmain]; rfl

/-- Witness for C5: `Range: bytes=2-5` on the stored 10-byte `clip.mp4` gives
206, the 4 bytes at offsets 2..5, and `Content-Range: bytes 2-5/10`. -/
theorem stream_valid_range_witness :
    ("bytes=" ++ "2" ++ "-" ++ "5") = "bytes=2-5" ∧
    parseRangeBounds "bytes=2-5" clipBlob.data.length = Except.ok (2, 5) ∧
    (stream_media "m1" (some ("bytes=" ++ "2" ++ "-" ++ "5")) clipStore).statusOf = 206 ∧
    (stream_media "m1" (some ("bytes=" ++ "2" ++ "-" ++ "5")) clipStore).bodyOf =
      [12, 13, 14, 15] ∧
    (stream_media "m1" (some ("bytes=" ++ "2" ++ "-" ++ "5")) clipStore).bodyOf.length = 4 ∧
    getHeader (stream_media "m1" (some ("bytes=" ++ "2" ++ "-" ++ "5")) clipStore).headersOf
        "Content-Range" =
      some "bytes 2-5/10" := by
  have h := stream_valid_range clipStore "m1" clipBlob "2" "5" 2 5
    (by rfl) (by rfl) (by decide) (by decide) (by rfl) (by rfl)
    (by decide) (by decide) (by decide) (by decide) (by decide)
  refine ⟨by rfl, by rfl, ?_, ?_, ?_, ?_⟩ <;> rw [h.1] <;> rfl

/-- C10: for a range `bytes=A-B` with A < size ≤ B on a resolvable object,
the code neither clamps `end` to size−1 nor rejects: it issues the store
read with offset A and length B−A+1 and declares `Content-Length: B−A+1` and
`Content-Range: bytes A-B/size`, while the body only contains the size−A
bytes actually available — strictly fewer than declared. -/
theorem overlong_range_unclamped (store : List Blob) (mid : String) (b : Blob)
    (sA sB : String) (a e : Int)
    (hfind : findMediaBlob store mid = some b)
    (h0 : removeBytesEq (sA.data ++ '-' :: sB.data) = sA.data ++ '-' :: sB.data)
    (hAd : '-' ∉ sA.data) (hBd : '-' ∉ sB.data)
    (hAi : pyIntChars sA.data = some a) (hBi : pyIntChars sB.data = some e)
    (hAne : sA.data ≠ []) (hBne : sB.data ≠ [])
    (ha : 0 ≤ a) (haN : a < (b.data.length : Int)) (hNe : (b.data.length : Int) ≤ e) :
    (stream_media mid (some ("bytes=" ++ sA ++ "-" ++ sB)) store).issuedRead =
      some (a, e - a + 1) ∧
    (stream_media mid (some ("bytes=" ++ sA ++ "-" ++ sB)) store).statusOf = 206 ∧
    getHeader (stream_media mid (some ("bytes=" ++ sA ++ "-" ++ sB)) store).headersOf
        "Content-Range" =
      some ("bytes " ++ toString a ++ "-" ++ toString e ++ "/" ++ toString b.data.length) ∧
    getHeader (stream_media mid (some ("bytes=" ++ sA ++ "-" ++ sB)) store).headersOf
        "Content-Length" =
      some (toString (e - a + 1)) ∧
    ((stream_media mid (some ("bytes=" ++ sA ++ "-" ++ sB)) store).bodyOf).length =
      b.data.length - a.toNat ∧
    (((stream_media mid (some ("bytes=" ++ sA ++ "-" ++ sB)) store).bodyOf).length : Int) <
      e - a + 1 := by
  have hp := parseRange_both sA sB b.data.length a e h0 hAd hBd hAi hBi hAne hBne
  have hr : ¬ ("bytes=" ++ sA ++ "-" ++ sB) = "" := by
    intro h
    have hd := data_bytes_both sA sB
    rw [h] at hd
    cases hd
  have hdl := download_blob_eq_ok b.data a (e - a + 1) ha (by omega) haN
  refine ⟨?_, ?_, ?_, ?_, ?_, ?_⟩ <;>
    rw [stream_media_resolved_ranged hfind hr hp, hdl]
  · rfl
  · rfl
  · rfl
  · rfl
  · simp only [StreamResult.bodyOf, List.length_take, List.length_drop]
    omega
  · simp only [StreamResult.bodyOf, List.length_take, List.length_drop]
    push_cast
    omega

/-- Witness for C10: `bytes=5-20` on the stored 10-byte object issues a read
of length 16 at offset 5, declares Content-Length 16 and
`Content-Range: bytes 5-20/10`, and delivers only 5 bytes. -/
theorem overlong_range_unclamped_witness :
    ("bytes=" ++ "5" ++ "-" ++ "20") = "bytes=5-20" ∧
    parseRangeBounds "bytes=5-20" clipBlob.data.length = Except.ok (5, 20) ∧
    (stream_media "m1" (some ("bytes=" ++ "5" ++ "-" ++ "20")) clipStore).issuedRead =
      some (5, 16) ∧
    (stream_media "m1" (some ("bytes=" ++ "5" ++ "-" ++ "20")) clipStore).statusOf = 206 ∧
    getHeader (stream_media "m1" (some ("bytes=" ++ "5" ++ "-" ++ "20")) clipStore).headersOf
        "Content-Length" =
      some "16" ∧
    (stream_media "m1" (some ("bytes=" ++ "5" ++ "-" ++ "20")) clipStore).bodyOf.length = 5 := by
  have h := overlong_range_unclamped clipStore "m1" clipBlob "5" "20" 5 20
    (by rfl) (by rfl) (by decide) (by decide) (by rfl) (by rfl)
    (by decide) (by decide) (by decide) (by decide) (by decide)
  refine ⟨by rfl, by rfl, ?_, h.2.1, ?_, ?_⟩
  · rw [h.1]; decide
  · rw [h.2.2.2.1]; decide
  · rw [h.2.2.2.2.1]; decide

/-- C4 amended: for a resolvable media_id and a non-empty range header, a
parse failure (non-numeric bound, or a header with no `-`) is converted by
the catch-all into a 500 server error with no store read issued; a parse
success is not validated at all — for any parsed start/end, including
start > end and start ≥ size, the store read is issued with the raw offset
`start` and length `end − start + 1`.  No 416 client error exists anywhere
in the handler. -/
theorem range_errors_amended (store : List Blob) (mid r : String) (b : Blob)
    (hfind : findMediaBlob store mid = some b) (hr : ¬ r = "") :
    (∀ msg, parseRangeBounds r b.data.length = Except.error msg →
      stream_media mid (some r) store = .error 500 ("Streaming failed: " ++ msg) none) ∧
    (∀ a e, parseRangeBounds r b.data.length = Except.ok (a, e) →
      (stream_media mid (some r) store).issuedRead = some (a, e - a + 1)) := by
  constructor
  · intro msg hp
    exact stream_media_parse_error hfind hr hp
  · intro a e hp
    rw [stream_media_resolved_ranged hfind hr hp]
    cases h' : download_blob b.data a (e - a + 1) with
    | error m => rfl
    | ok body => rfl

/-- Witness for C4 amended: `bytes=abc-5` on the 10-byte object gives the
500 with no read; `bytes=5-2` issues the read with length −2. -/
theorem range_errors_amended_witness :
    parseRangeBounds "bytes=abc-5" clipBlob.data.length = Except.error "ValueError" ∧
    stream_media "m1" (some "bytes=abc-5") clipStore =
      .error 500 "Streaming failed: ValueError" none ∧
    parseRangeBounds "bytes=5-2" clipBlob.data.length = Except.ok (5, 2) ∧
    (stream_media "m1" (some "bytes=5-2") clipStore).issuedRead = some (5, -2) := by
  have h1 := range_errors_amended clipStore "m1" "bytes=abc-5" clipBlob (by rfl) (by decide)
  have h2 := range_errors_amended clipStore "m1" "bytes=5-2" clipBlob (by rfl) (by decide)
  refine ⟨by rfl, h1.1 "ValueError" (by rfl), by rfl, ?_⟩
  have := h2.2 5 2 (by rfl)
  simpa using this

theorem list_entry_source {store : List Blob} {e : MediaListEntry}
    (he : e ∈ (list_media store).2) :
    ∃ b, b ∈ store ∧ lookupMeta b.metadata "media_id" = some e.media_id ∧
      e.size = b.data.length := by
  simp only [list_media, List.mem_filterMap] at he
  obtain ⟨b, hb, hfb⟩ := he
  refine ⟨b, hb, ?_⟩
  split at hfb
  · cases hfb
  · split at hfb
    · cases hfb
    · rename_i mid heq
      split at hfb
      · cases hfb
      · cases hfb
        exact ⟨heq, rfl⟩

/-- C3 amended: the service maintains no persisted index at all.  An
admissible ingest's only store mutation is putting the single media blob
built by `mkMediaBlob` (no reserved index object); every `list` entry is
read off a blob actually present in the store (with the blob's own live
size); and after `delete` resolves a media_id to a blob and removes it,
`list` — re-enumerating the store — shows no entry with that media_id
(assuming, as the key scheme guarantees, that the id occurred only under
that storage key). -/
theorem no_index_amended :
    (∀ (rid now : String) (f : UploadFile) (store : List Blob),
      is_allowed_file f.filename = true →
      (upload_media rid now true f store).newStore = putBlob store (mkMediaBlob rid now f)) ∧
    (∀ (store : List Blob) (e : MediaListEntry), e ∈ (list_media store).2 →
      ∃ b, b ∈ store ∧ lookupMeta b.metadata "media_id" = some e.media_id ∧
        e.size = b.data.length) ∧
    (∀ (store : List Blob) (mid : String) (b : Blob),
      findMediaBlob store mid = some b →
      (∀ x ∈ store, lookupMeta x.metadata "media_id" = some mid → x.name = b.name) →
      ∀ e ∈ (list_media ((delete_media mid store).newStore)).2, e.media_id ≠ mid) := by
  refine ⟨?_, ?_, ?_⟩
  · intro rid now f store h
    simp [upload_media, h, UploadResult.newStore]
  · intro store e he
    exact list_entry_source he
  · intro store mid b hfind huniq e he hmid
    have hstore : (delete_media mid store).newStore =
        store.filter (fun x => x.name ≠ b.name) := by
      simp [delete_media, hfind, DeleteResult.newStore]
    rw [hstore] at he
    obtain ⟨x, hx, hlk, _⟩ := list_entry_source he
    rw [List.mem_filter] at hx
    rw [hmid] at hlk
    have hxname := huniq x hx.1 hlk
    have hne : x.name ≠ b.name := by simpa using hx.2
    exact hne hxname

/-- Witness for C3 amended at the concrete `clip.mp4` ingest. -/
theorem no_index_amended_witness :
    is_allowed_file "clip.mp4" = true ∧
    (upload_media "m1" "t0" true clipFile []).newStore =
      putBlob [] (mkMediaBlob "m1" "t0" clipFile) :=
  ⟨by rfl, no_index_amended.1 "m1" "t0" clipFile [] (by rfl)⟩

/-- C6 amended: when a range header `bytes=start-end` is present, an omitted
start bound parses to 0 and an omitted end bound parses to size−1, and the
status becomes 206; but `bytes=-B` is parsed as start 0, end B — i.e. the
FIRST B+1 bytes, not a suffix of B bytes. -/
theorem range_defaults_amended (store : List Blob) (mid : String) (b : Blob)
    (sA sB : String) (a e : Int)
    (hfind : findMediaBlob store mid = some b) (hN : 0 < b.data.length)
    (hB0 : removeBytesEq sB.data = sB.data) (hBd : '-' ∉ sB.data)
    (hBi : pyIntChars sB.data = some e) (hBne : sB.data ≠ []) (hBpos : 0 ≤ e)
    (hA0 : removeBytesEq (sA.data ++ ['-']) = sA.data ++ ['-']) (hAd : '-' ∉ sA.data)
    (hAi : pyIntChars sA.data = some a) (hAne : sA.data ≠ []) (hApos : 0 ≤ a)
    (haN : a < (b.data.length : Int)) :
    parseRangeBounds ("bytes=-" ++ sB) b.data.length = Except.ok (0, e) ∧
    (stream_media mid (some ("bytes=-" ++ sB)) store).statusOf = 206 ∧
    (stream_media mid (some ("bytes=-" ++ sB)) store).issuedRead = some (0, e + 1) ∧
    parseRangeBounds ("bytes=" ++ sA ++ "-") b.data.length =
      Except.ok (a, (b.data.length : Int) - 1) ∧
    (stream_media mid (some ("bytes=" ++ sA ++ "-")) store).statusOf = 206 ∧
    (stream_media mid (some ("bytes=" ++ sA ++ "-")) store).issuedRead =
      some (a, (b.data.length : Int) - 1 - a + 1) := by
  have hp1 := parseRange_suffix sB b.data.length e hB0 hBd hBi hBne
  have hp2 := parseRange_omitted_end sA b.data.length a hA0 hAd hAi hAne
  have hr1 : ¬ ("bytes=-" ++ sB) = "" := by
    intro h
    have hd := data_bytes_dash sB
    rw [h] at hd
    cases hd
  have hr2 : ¬ ("bytes=" ++ sA ++ "-") = "" := by
    intro h
    have hd := data_bytes_mid_dash sA
    rw [h] at hd
    cases hd
  have hdl1 := download_blob_eq_ok b.data 0 (e - 0 + 1) (le_refl 0) (by omega) (by omega)
  have hdl2 := download_blob_eq_ok b.data a ((b.data.length : Int) - 1 - a + 1)
    hApos (by omega) haN
  refine ⟨hp1, ?_, ?_, hp2, ?_, ?_⟩
  · rw [stream_media_resolved_ranged hfind hr1 hp1, hdl1]
    rfl
  · rw [stream_media_resolved_ranged hfind hr1 hp1, hdl1]
    show some (0, e - 0 + 1) = some (0, e + 1)
    norm_num
  · rw [stream_media_resolved_ranged hfind hr2 hp2, hdl2]
    rfl
  · rw [stream_media_resolved_ranged hfind hr2 hp2, hdl2]
    rfl

/-- Witness for C6 amended: `bytes=-500` and `bytes=100-` on the stored
600-byte object. -/
theorem range_defaults_amended_witness :
    ("bytes=-" ++ "500") = "bytes=-500" ∧
    parseRangeBounds ("bytes=-" ++ "500") bigBlob.data.length = Except.ok (0, 500) ∧
    (stream_media "m2" (some ("bytes=-" ++ "500")) bigStore).issuedRead = some (0, 501) ∧
    parseRangeBounds ("bytes=" ++ "100" ++ "-") bigBlob.data.length = Except.ok (100, 599) ∧
    (stream_media "m2" (some ("bytes=" ++ "100" ++ "-")) bigStore).issuedRead =
      some (100, 500) := by
  have h := range_defaults_amended bigStore "m2" bigBlob "100" "500" 100 500
    (by rfl) (by decide) (by rfl) (by decide) (by rfl) (by decide) (by decide)
    (by rfl) (by decide) (by rfl) (by decide) (by decide) (by decide)
  have h600 : bigBlob.data.length = 600 := by rfl
  refine ⟨by rfl, h.1, ?_, ?_, ?_⟩
  · rw [h.2.2.1]
    norm_num
  · rw [h.2.2.2.1, h600]
    norm_num
  · rw [h.2.2.2.2.2, h600]
    norm_num

/-- C6 counterexample: `bytes=-500` on the stored 600-byte object is NOT
served as a suffix range.  The suffix interpretation (the last 500 bytes)
would be offsets 100..599, body length 500, `Content-Range:
bytes 100-599/600`; the code instead parses start 0, end 500 and returns the
FIRST 501 bytes with `Content-Range: bytes 0-500/600`. -/
theorem suffix_range_counterexample :
    parseRangeBounds "bytes=-500" bigBlob.data.length = Except.ok (0, 500) ∧
    (stream_media "m2" (some "bytes=-500") bigStore).statusOf = 206 ∧
    (stream_media "m2" (some "bytes=-500") bigStore).issuedRead = some (0, 501) ∧
    getHeader (stream_media "m2" (some "bytes=-500") bigStore).headersOf "Content-Range" =
      some "bytes 0-500/600" ∧
    (stream_media "m2" (some "bytes=-500") bigStore).bodyOf = bigBlob.data.take 501 ∧
    (stream_media "m2" (some "bytes=-500") bigStore).bodyOf ≠ bigBlob.data.drop 100 := by
  have hbody : (stream_media "m2" (some "bytes=-500") bigStore).bodyOf =
      bigBlob.data.take 501 := by rfl
  refine ⟨by rfl, by rfl, by rfl, by rfl, hbody, ?_⟩
  rw [hbody]
  intro hcontra
  have hlen := congrArg List.length hcontra
  rw [List.length_take, List.length_drop] at hlen
  have h600 : bigBlob.data.length = 600 := by rfl
  rw [h600] at hlen
  omega

/-- C1: the spec promises that an admissible upload whose bytes the store
accepts returns a success response (success, media_id, filename, size,
content_type, stream_url), and that a 10-byte `clip.mp4` yields size 10 and a
"video" classification rather than a 500.  The code violates this: the
duplicated nested `upload_blob` call makes every upload raise, so uploading
the 10-byte `clip.mp4` with an accepting store returns status 500 — even
though the inner write already stored the correctly-classified blob. -/
theorem upload_clip_returns_500 :
    (upload_media "m1" "t0" true clipFile []).statusCode = 500 ∧
    (upload_media "m1" "t0" true clipFile []).newStore = [clipBlob] ∧
    get_media_type "clip.mp4" = "video" ∧
    clipBlob.data.length = 10 :=
  by refine ⟨?_, ?_, ?_, ?_⟩ <;> rfl

/-- C2: the spec says an unresolvable media_id makes stream, info and delete
fail with 404 — never 500 — and that a second delete fails not-found.  The
code raises `HTTPException(404)` inside the `try` block of each handler, and
the catch-all `except Exception` swallows it and re-raises a 500: on a store
holding only the `clip.mp4` blob, an unknown id gives 500 from all three
handlers, and deleting `m1` twice gives 200 then 500 (not 404). -/
theorem unresolved_media_returns_500 :
    (stream_media "missing" none clipStore).statusOf = 500 ∧
    (get_media_info "missing" clipStore).statusOf = 500 ∧
    (delete_media "missing" clipStore).statusCode = 500 ∧
    (delete_media "m1" clipStore).statusCode = 200 ∧
    (delete_media "m1" (delete_media "m1" clipStore).newStore).statusCode = 500 :=
  by refine ⟨?_, ?_, ?_, ?_, ?_⟩ <;> rfl

/-- C3 counterexample: the claim asserts a persisted Metadata Index kept as a
single reserved store object, appended to on ingest, filtered on delete, and
returned verbatim by `list()` without re-verifying against the object store
(so `list` could show deleted entries).  In the code no such object exists:
ingesting `clip.mp4` writes exactly one object — the media blob `m1.mp4`
itself, no reserved index object — and `list` enumerates the live blob set,
so the moment the object is deleted its entry disappears from `list`
(total drops from 1 to 0), i.e. `list` does re-verify against the store. -/
theorem no_index_counterexample :
    (upload_media "m1" "t0" true clipFile []).newStore = [clipBlob] ∧
    clipBlob.name = "m1.mp4" ∧
    (list_media [clipBlob]).1 = 1 ∧
    (delete_media "m1" [clipBlob]).newStore = [] ∧
    (list_media ((delete_media "m1" [clipBlob]).newStore)).1 = 0 :=
  by refine ⟨?_, ?_, ?_, ?_, ?_⟩ <;> rfl

/-- C4 counterexample: the claim says a malformed range (non-numeric,
start > end, or start ≥ size) on a resolvable media_id is a client error
(416 semantics) validated before any store read.  On the stored 10-byte
object: a non-numeric bound (`bytes=abc-5`) returns a 500 server error, and
for `bytes=5-2` (start > end) and `bytes=15-20` (start ≥ size) the handler
issues the store read with the unvalidated offset and length — length −2 and
offset 15 respectively — and then returns 500, never a 4xx. -/
theorem range_validation_counterexample :
    (stream_media "m1" (some "bytes=abc-5") clipStore).statusOf = 500 ∧
    (stream_media "m1" (some "bytes=abc-5") clipStore).issuedRead = none ∧
    (stream_media "m1" (some "bytes=5-2") clipStore).issuedRead = some (5, -2) ∧
    (stream_media "m1" (some "bytes=5-2") clipStore).statusOf = 500 ∧
    (stream_media "m1" (some "bytes=15-20") clipStore).issuedRead = some (15, 6) ∧
    (stream_media "m1" (some "bytes=15-20") clipStore).statusOf = 500 :=
  by refine ⟨?_, ?_, ?_, ?_, ?_, ?_⟩ <;> rfl

/-- C7: the spec's round-trip property assumes `ingest` can succeed and that
`info` then returns a matching record.  In the code no ingest ever succeeds:
uploading `clip.mp4` returns 500 (duplicated nested `upload_blob`), so the
claim's premise is unsatisfiable.  The record substance does survive in the
orphaned object written by the inner call: `info` on the generated id
returns the matching filename, content type and media type — but the caller
was told the upload failed and never receives that id. -/
theorem roundtrip_code_eval :
    (upload_media "m7" "t7" true clipFile []).statusCode = 500 ∧
    get_media_info "m7" (upload_media "m7" "t7" true clipFile []).newStore =
      .ok ⟨"m7", "clip.mp4", "video/mp4", 10, "t7", "video"⟩ :=
  by refine ⟨?_, ?_⟩ <;> rfl

end Media
